import Mathlib

/-!
Shallow embedding of the rabbitui terminal dashboard (Rust) and proofs about
its pane/refresh engine.  Each definition mirrors one item of the source:

* `TabsState`, `Datatable` — `src/main.rs`
* `ConfirmationBox` — `src/widgets/confirmation.rs`
* `FileNavigator` — `src/widgets/files.rs`
* `QueuesPane.handle_key` / `QueuesPane.update` — `src/views/queues.rs`
* `ChartData` and the y-axis bounds of `RChart::draw` — `src/widgets/chart.rs`

Modelling conventions:

* Rust `usize` is `ℕ`; the one place where `usize` arithmetic can wrap
  (`entries.len() - 1` on an empty table) is modelled with release-profile
  two's-complement wrapping via `usizePred` (a debug build would abort there
  instead; either way the source does not guard the empty case).
* Rust `f64` values that the verified claims touch hold small integers or
  exact decimal constants, so they are embedded as `ℚ` (exact in `f64` for
  the magnitudes the program produces); the `0./0.` NaN seed of the fold in
  `ChartData::y_max`/`y_min` is modelled as `Option ℚ` with `none` for NaN.
* Operations that can abort (out-of-bounds `Vec` indexing, as in
  `self.table.data.get()[i]`) return `Option`, `none` meaning a panic.
* I/O collaborators (clipboard, filesystem, management client) are an
  explicit `Env` of pure functions plus an `Effect` trace listing the calls
  the handler makes, in order.
-/

namespace Rabbitui

/-- Modulus of Rust `usize` arithmetic on a 64-bit target. -/
def USIZE : ℕ := 2 ^ 64

/-- Wrapping `n - 1` on `usize`: the value of `self.data.entries.len() - 1`
in a release build (for `n = 0` it wraps to `2^64 - 1`). -/
def usizePred (n : ℕ) : ℕ := (n + (USIZE - 1)) % USIZE

theorem usizePred_of_pos {n : ℕ} (h1 : 1 ≤ n) (h2 : n < USIZE) :
    usizePred n = n - 1 := by
  have hU : USIZE = 18446744073709551616 := by norm_num [USIZE]
  simp only [usizePred, hU] at *
  omega

theorem usizePred_zero : usizePred 0 = USIZE - 1 := by
  have hU : USIZE = 18446744073709551616 := by norm_num [USIZE]
  simp only [usizePred, hU]

/-- The selection state of a `tui::widgets::TableState`.  The widget also
carries a scroll offset, but the source never reads it, so only `selected`
is embedded. -/
structure TableState where
  selected : Option ℕ
deriving DecidableEq, Repr

/-- `TableState::default()`: nothing selected. -/
def TableState.default : TableState := ⟨none⟩

/-- `TableState::select`. -/
def TableState.select (_s : TableState) (i : Option ℕ) : TableState := ⟨i⟩

/-- `DataContainer<T>` of `src/main.rs`. -/
structure DataContainer (T : Type) where
  entries : List T
deriving DecidableEq, Repr

/-- `Datatable<T>` of `src/main.rs`: tabular data plus its selection state. -/
structure Datatable (T : Type) where
  data : DataContainer T
  state : TableState
deriving DecidableEq, Repr

/-- `Datatable::new`. -/
def Datatable.new {T : Type} (d : List T) : Datatable T :=
  { data := ⟨d⟩, state := TableState.default }

/-- `Datatable::next` (src/main.rs:130-142): from `Some(i)` go to `0` when
`i >= len - 1`, else `i + 1`; from `None` select `0`.  The `len - 1` is the
wrapping `usizePred`. -/
def Datatable.next {T : Type} (t : Datatable T) : Datatable T :=
  let i := match t.state.selected with
    | some i => if usizePred t.data.entries.length ≤ i then 0 else i + 1
    | none => 0
  { t with state := t.state.select (some i) }

/-- `Datatable::previous` (src/main.rs:144-156): from `Some(0)` go to
`len - 1` (wrapping), from `Some(i)` to `i - 1`; from `None` select `0`. -/
def Datatable.previous {T : Type} (t : Datatable T) : Datatable T :=
  let i := match t.state.selected with
    | some i => if i = 0 then usizePred t.data.entries.length else i - 1
    | none => 0
  { t with state := t.state.select (some i) }

/-- `ConfirmationBox` (src/widgets/confirmation.rs): a two-row "No"/"Yes"
table. -/
structure ConfirmationBox where
  table : Datatable String
deriving DecidableEq, Repr

/-- `ConfirmationBox::default()`: rows `["No", "Yes"]` with row 0 ("No")
selected. -/
def ConfirmationBox.default : ConfirmationBox :=
  { table := { data := ⟨["No", "Yes"]⟩, state := TableState.default.select (some 0) } }

/-- `ConfirmationBox::reset`: re-select row 0 ("No"). -/
def ConfirmationBox.reset (c : ConfirmationBox) : ConfirmationBox :=
  { c with table := { c.table with state := c.table.state.select (some 0) } }

/-- `ConfirmationBox::is_confirmed`: row 1 ("Yes") is selected. -/
def ConfirmationBox.is_confirmed (c : ConfirmationBox) : Bool :=
  c.table.state.selected = some 1

/-- `ConfirmationBox::next`. -/
def ConfirmationBox.next (c : ConfirmationBox) : ConfirmationBox :=
  { c with table := c.table.next }

/-- `ConfirmationBox::previous`. -/
def ConfirmationBox.previous (c : ConfirmationBox) : ConfirmationBox :=
  { c with table := c.table.previous }

/-- An empty `Datatable<T>` over `ℕ` with a given prior selection, used to
state the empty-list navigation facts. -/
def emptyNatTable (s : Option ℕ) : Datatable ℕ :=
  { data := ⟨[]⟩, state := ⟨s⟩ }

/-- A one-item table with no selection, used against the wraparound-closure
claim. -/
def oneItemTable : Datatable ℕ :=
  { data := ⟨[7]⟩, state := ⟨none⟩ }

theorem Datatable.next_mk {T : Type} (d : DataContainer T) (i : ℕ)
    (hi : i < d.entries.length)
    (hlen : d.entries.length < USIZE) :
    (Datatable.next ⟨d, ⟨some i⟩⟩ : Datatable T)
      = ⟨d, ⟨some ((i + 1) % d.entries.length)⟩⟩ := by
  have h1 : usizePred d.entries.length = d.entries.length - 1 :=
    usizePred_of_pos (by omega) hlen
  have key : (if d.entries.length - 1 ≤ i then 0 else i + 1)
      = (i + 1) % d.entries.length := by
    by_cases hc : d.entries.length - 1 ≤ i
    · have hi1 : i + 1 = d.entries.length := by omega
      simp [hc, hi1]
    · have hi1 : i + 1 < d.entries.length := by omega
      simp [hc, Nat.mod_eq_of_lt hi1]
  simp only [Datatable.next, h1, TableState.select, key]

theorem Datatable.previous_mk {T : Type} (d : DataContainer T) (i : ℕ)
    (hpos : 0 < d.entries.length)
    (hlen : d.entries.length < USIZE) :
    (Datatable.previous ⟨d, ⟨some i⟩⟩ : Datatable T)
      = ⟨d, ⟨some (if i = 0 then d.entries.length - 1 else i - 1)⟩⟩ := by
  have h1 : usizePred d.entries.length = d.entries.length - 1 :=
    usizePred_of_pos (by omega) hlen
  simp only [Datatable.previous, h1, TableState.select]

/-- C3 counterexample: on a `Datatable` with zero items and no prior
selection, `next()` and `previous()` select index 0 — the selection does not
remain `None`, so the two calls are not no-ops. -/
theorem empty_nav_not_noop_cex :
    ((emptyNatTable none).next.state.selected = some 0)
  ∧ ((emptyNatTable none).previous.state.selected = some 0)
  ∧ ((emptyNatTable none).next.state.selected ≠ none) := by decide

/-- C3 amended: on an empty list `next()`/`previous()` never leave the
selection `None`: from no selection both select index 0, and with a prior
selection the unguarded `len - 1` wraps, e.g. `previous()` from `Some(0)`
selects `2^64 - 1` (a debug build would abort on the same underflow). -/
theorem empty_nav_amended (s : Option ℕ) (i : ℕ) :
    ((emptyNatTable s).next.state.selected ≠ none)
  ∧ ((emptyNatTable s).previous.state.selected ≠ none)
  ∧ ((emptyNatTable none).next.state.selected = some 0)
  ∧ ((emptyNatTable none).previous.state.selected = some 0)
  ∧ ((emptyNatTable (some i)).next.state.selected
       = some (if USIZE - 1 ≤ i then 0 else i + 1))
  ∧ ((emptyNatTable (some 0)).previous.state.selected = some (USIZE - 1)) := by
  refine ⟨?_, ?_, by decide, by decide, ?_, ?_⟩
  · cases s <;> simp [emptyNatTable, Datatable.next, TableState.select]
  · cases s <;> simp [emptyNatTable, Datatable.previous, TableState.select]
  · simp [emptyNatTable, Datatable.next, TableState.select, usizePred_zero]
  · simp [emptyNatTable, Datatable.previous, TableState.select, usizePred_zero]

/-- C9 counterexample: on a list of length `N = 1` starting with no
selection, one `next()` call yields selection `Some 0`, not the starting
value `None`; and `previous()` after `next()` also yields `Some 0`, so
`previous` does not invert `next` from a `None` start. -/
theorem next_cycle_cex :
    (oneItemTable.state.selected = none)
  ∧ (oneItemTable.next.state.selected = some 0)
  ∧ (oneItemTable.next.previous.state.selected = some 0)
  ∧ ((some 0 : Option ℕ) ≠ none) := by decide

/-- C9 amended: when a selection is present and in range (and the list is
nonempty with fewer than `2^64` items), `N` successive `next()` calls return
the table to its starting state, and `previous()` is the exact inverse of
`next()`; from a `None` selection both operations select index 0 instead, so
the closure and inverse laws hold only from a selected state. -/
theorem next_cycle (T : Type) (t : Datatable T) (i : ℕ)
    (hsel : t.state.selected = some i)
    (hi : i < t.data.entries.length)
    (hlen : t.data.entries.length < USIZE) :
    (Datatable.next^[t.data.entries.length] t = t)
  ∧ (t.next.previous = t)
  ∧ (t.previous.next = t) := by
  obtain ⟨d, ⟨sel⟩⟩ := t
  simp only at hsel hi hlen
  subst hsel
  refine ⟨?_, ?_, ?_⟩
  · have hstep : ∀ m : ℕ,
        Datatable.next^[m] (⟨d, ⟨some i⟩⟩ : Datatable T)
          = ⟨d, ⟨some ((i + m) % d.entries.length)⟩⟩ := by
      intro m
      induction m with
      | zero => simp [Nat.mod_eq_of_lt hi]
      | succ m ih =>
        rw [Function.iterate_succ_apply', ih,
          Datatable.next_mk d ((i + m) % d.entries.length)
            (Nat.mod_lt _ (by omega)) hlen]
        have h2 : ((i + m) % d.entries.length + 1) % d.entries.length
            = (i + (m + 1)) % d.entries.length := by
          rw [Nat.mod_add_mod, Nat.add_assoc]
        rw [h2]
    have hfin : (i + d.entries.length) % d.entries.length = i := by
      rw [Nat.add_mod_right]
      exact Nat.mod_eq_of_lt hi
    rw [hstep d.entries.length, hfin]
  · rw [Datatable.next_mk d i hi hlen]
    by_cases hc : i + 1 = d.entries.length
    · rw [hc, Nat.mod_self, Datatable.previous_mk d 0 (by omega) hlen]
      have h3 : d.entries.length - 1 = i := by omega
      simp [h3]
    · have h0 : (i + 1) % d.entries.length = i + 1 := Nat.mod_eq_of_lt (by omega)
      rw [h0, Datatable.previous_mk d (i + 1) (by omega) hlen]
      simp
  · rw [Datatable.previous_mk d i (by omega) hlen]
    by_cases hc : i = 0
    · subst hc
      have h4 : (if (0 : ℕ) = 0 then d.entries.length - 1 else 0 - 1)
          = d.entries.length - 1 := by simp
      rw [h4, Datatable.next_mk d (d.entries.length - 1) (by omega) hlen,
        Nat.sub_add_cancel (by omega), Nat.mod_self]
    · simp only [if_neg hc]
      rw [Datatable.next_mk d (i - 1) (by omega) hlen]
      have h3 : i - 1 + 1 = i := by omega
      rw [h3, Nat.mod_eq_of_lt hi]

/-- C9 witness: the amended cycle/inverse laws at a concrete two-row table
with row 0 selected. -/
theorem next_cycle_witness :
    (({ data := ⟨[3, 4]⟩, state := ⟨some 0⟩ } : Datatable ℕ).state.selected = some 0)
  ∧ ((0 : ℕ) < 2) ∧ ((2 : ℕ) < USIZE)
  ∧ ((Datatable.next^[2] ({ data := ⟨[3, 4]⟩, state := ⟨some 0⟩ } : Datatable ℕ)
        = { data := ⟨[3, 4]⟩, state := ⟨some 0⟩ })
     ∧ (({ data := ⟨[3, 4]⟩, state := ⟨some 0⟩ } : Datatable ℕ).next.previous
        = { data := ⟨[3, 4]⟩, state := ⟨some 0⟩ })
     ∧ (({ data := ⟨[3, 4]⟩, state := ⟨some 0⟩ } : Datatable ℕ).previous.next
        = { data := ⟨[3, 4]⟩, state := ⟨some 0⟩ })) :=
  ⟨rfl, by decide, by norm_num [USIZE],
    next_cycle ℕ { data := ⟨[3, 4]⟩, state := ⟨some 0⟩ } 0 rfl (by decide)
      (by norm_num [USIZE])⟩

/-- C6 counterexample: from the freshly armed confirmation state (selection
"No", i.e. row 0), two successive `next()` calls return the selection to row
0 ("No"), not "Yes" — `is_confirmed` is `false` after two presses. -/
theorem confirm_double_next_cex :
    (ConfirmationBox.default.table.state.selected = some 0)
  ∧ (ConfirmationBox.default.next.next.table.state.selected = some 0)
  ∧ (ConfirmationBox.default.next.next.is_confirmed = false) := by decide

/-- C6 amended: from the freshly armed confirmation state (selection "No"),
one `next()` call moves the selection to "Yes" (`is_confirmed`), and a
second `next()` wraps back to the initial state — the selection wraps over
the 2-element set every 2 presses, so it sits at "Yes" after odd, not even,
numbers of presses. -/
theorem confirm_next_period_two :
    (ConfirmationBox.default.next.is_confirmed = true)
  ∧ (ConfirmationBox.default.next.table.state.selected = some 1)
  ∧ (ConfirmationBox.default.next.next = ConfirmationBox.default) := by decide

/-- `RateContainer` of `src/models.rs` (`rate: f64` embedded as `ℚ`). -/
structure RateContainer where
  rate : ℚ
deriving DecidableEq, Repr

/-- `QueueMsgStats` of `src/models.rs` (`u64` counters as `ℕ`). -/
structure QueueMsgStats where
  publish : ℕ
  publish_details : RateContainer
  deliver_get : ℕ
  deliver_get_details : RateContainer
  ack : ℕ
  ack_details : RateContainer
deriving DecidableEq, Repr

/-- `QueueInfo` of `src/models.rs`. -/
structure QueueInfo where
  name : String
  t : String
  state : String
  message_stats : QueueMsgStats
  ready : ℕ
  unacked : ℕ
  total : ℕ
  vhost : String
deriving DecidableEq, Repr

/-- `MQMessage` of `src/models.rs`. -/
structure MQMessage where
  payload_bytes : ℕ
  redelivered : Bool
  exchange : String
  routing_key : String
  payload : String
deriving DecidableEq, Repr

/-- A filesystem path (Rust `PathBuf`), embedded as its string form. -/
abbrev FPath := String

/-- The pure image of the I/O collaborators `QueuesPane::handle_key` talks
to: the clipboard read (`ClipboardContext::get_contents`), the management
client's pop reply (`pop_queue_item`), `fs::read_to_string`, and the
`PathBuf`/`fs` queries the file navigator uses.  `readDir` yields the raw
entries of `fs::read_dir` in iteration order; `fileName` is
`PathBuf::file_name` composed with `to_str` (`none` when there is no final
component); `parent` is `PathBuf::parent`. -/
structure Env where
  clipboard : String
  popResult : String → String → Option MQMessage
  readToString : FPath → String
  is_file : FPath → Bool
  readDir : FPath → List FPath
  fileName : FPath → Option String
  parent : FPath → Option FPath

/-- `file_name_helper` of `src/widgets/files.rs`: the file name of a path,
or `""` when it has none. -/
def file_name_helper (env : Env) (f : FPath) : String :=
  (env.fileName f).getD ""

/-- `FileNavigator` of `src/widgets/files.rs`. -/
structure FileNavigator where
  root : FPath
  file_table : Datatable FPath
deriving DecidableEq, Repr

/-- `table_from_path` of `src/widgets/files.rs`: list the directory, drop
dotfiles, and select the first entry when the listing is nonempty. -/
def table_from_path (env : Env) (path : FPath) : Datatable FPath :=
  let files := (env.readDir path).filter
    (fun f => !(file_name_helper env f).startsWith ".")
  let d := Datatable.new files
  if files.isEmpty then d else { d with state := d.state.select (some 0) }

/-- `FileNavigator::next`. -/
def FileNavigator.next (nav : FileNavigator) : FileNavigator :=
  { nav with file_table := nav.file_table.next }

/-- `FileNavigator::previous`. -/
def FileNavigator.previous (nav : FileNavigator) : FileNavigator :=
  { nav with file_table := nav.file_table.previous }

/-- `FileNavigator::next_table`: re-list `root` and move to it. -/
def FileNavigator.next_table (env : Env) (nav : FileNavigator) (root : FPath) :
    FileNavigator :=
  { nav with file_table := table_from_path env root, root := root }

/-- `FileNavigator::select_parent`: re-list the parent directory when one
exists, else a no-op. -/
def FileNavigator.select_parent (env : Env) (nav : FileNavigator) : FileNavigator :=
  match env.parent nav.root with
  | some p => nav.next_table env p
  | none => nav

/-- `FileNavigator::select`: return the selected file, or descend into the
selected directory.  `none` is the panic of the unchecked indexing
`self.file_table.data.get()[i]` when the selection is out of bounds. -/
def FileNavigator.select (env : Env) (nav : FileNavigator) :
    Option (Option FPath × FileNavigator) :=
  match nav.file_table.state.selected with
  | some i =>
    match nav.file_table.data.entries.get? i with
    | none => none
    | some f =>
      if env.is_file f then some (some f, nav)
      else some (none, nav.next_table env f)
  | none => some (none, nav)

/-- Key presses as `QueuesPane::handle_key` distinguishes them
(`termion::event::Key`): `Char c` (Enter arrives as `Char '\n'`),
`Ctrl c`, `Backspace`, and a stand-in for every other key, which the
source's wildcard arm ignores. -/
inductive KKey where
  | Char (c : Char)
  | Ctrl (c : Char)
  | Backspace
  | OtherKey
deriving DecidableEq, Repr

/-- One call the key handler makes on a shared resource, in order: the
management-client calls (`post_queue_payload`, `pop_queue_item`,
`purge_queue`) and the clipboard write (`set_contents`). -/
inductive Effect where
  | postPayload (queue_name : String) (vhost : String) (payload : String)
  | popItem (queue_name : String) (vhost : String)
  | purgeQueue (queue_name : String) (vhost : String)
  | clipboardSet (contents : String)
deriving DecidableEq, Repr

/-- The mutable state of `QueuesPane` (src/views/queues.rs): the main queue
table, the confirmation box, the file explorer, and the eight boolean
flags.  The channel receiver, thread handle, client and clipboard handles
are I/O-side and appear through `Env`, `Effect` and the explicit pending
list of `QueuesPane.update`. -/
structure QueuesPane where
  table : Datatable QueueInfo
  confirmation : ConfirmationBox
  explorer : FileNavigator
  should_notif_paste : Bool
  should_notif_copy : Bool
  should_notif_no_msg : Bool
  should_notif_purged : Bool
  should_notif_from_file : Bool
  should_show_help : Bool
  should_confirm : Bool
  should_open_files : Bool
deriving DecidableEq, Repr

/-- The five assignments at the top of `QueuesPane::handle_key`
(src/views/queues.rs:179-183): every notification flag is cleared before
the key is dispatched. -/
def clearNotifs (st : QueuesPane) : QueuesPane :=
  { st with
      should_notif_copy := false
      should_notif_paste := false
      should_notif_no_msg := false
      should_notif_purged := false
      should_notif_from_file := false }

/-- The `Key::Char('j')` arm (src/views/queues.rs:185-193): row down, routed
by the overlay priority confirmation > file browser > main table. -/
def QueuesPane.onKeyJ (st : QueuesPane) : Option (QueuesPane × List Effect) :=
  some (if st.should_confirm then { st with confirmation := st.confirmation.next }
    else if st.should_open_files then { st with explorer := st.explorer.next }
    else { st with table := st.table.next }, [])

/-- The `Key::Char('k')` arm (src/views/queues.rs:194-202): row up, same
routing as `j`. -/
def QueuesPane.onKeyK (st : QueuesPane) : Option (QueuesPane × List Effect) :=
  some (if st.should_confirm then { st with confirmation := st.confirmation.previous }
    else if st.should_open_files then { st with explorer := st.explorer.previous }
    else { st with table := st.table.previous }, [])

/-- The `Key::Char('p')` arm (src/views/queues.rs:203-215): publish the
clipboard contents to the selected queue.  `none` is the panic of the
unchecked indexing `self.table.data.get()[i]`. -/
def QueuesPane.onKeyP (env : Env) (st : QueuesPane) :
    Option (QueuesPane × List Effect) :=
  match st.table.state.selected with
  | some i =>
    match st.table.data.entries.get? i with
    | none => none
    | some queue_info =>
      some ({ st with should_notif_paste := true },
        [Effect.postPayload queue_info.name queue_info.vhost env.clipboard])
  | none => some (st, [])

/-- The `Key::Ctrl('p')` arm (src/views/queues.rs:216-230): pop a message
from the selected queue onto the clipboard, or flag "no messages". -/
def QueuesPane.onCtrlP (env : Env) (st : QueuesPane) :
    Option (QueuesPane × List Effect) :=
  match st.table.state.selected with
  | some i =>
    match st.table.data.entries.get? i with
    | none => none
    | some info =>
      match env.popResult info.name info.vhost with
      | some m =>
        some ({ st with should_notif_copy := true },
          [Effect.popItem info.name info.vhost, Effect.clipboardSet m.payload])
      | none =>
        some ({ st with should_notif_no_msg := true },
          [Effect.popItem info.name info.vhost])
  | none => some (st, [])

/-- The `Key::Char('d')` arm (src/views/queues.rs:231-235): arm the purge
confirmation when a row is selected. -/
def QueuesPane.onKeyD (st : QueuesPane) : Option (QueuesPane × List Effect) :=
  some (if st.table.state.selected.isSome
    then { st with should_confirm := true } else st, [])

/-- The `Key::Char('f')` arm (src/views/queues.rs:236-238): toggle the file
explorer overlay. -/
def QueuesPane.onKeyF (st : QueuesPane) : Option (QueuesPane × List Effect) :=
  some ({ st with should_open_files := !st.should_open_files }, [])

/-- The `Key::Char('\n')` (Enter) arm (src/views/queues.rs:239-265): with a
confirmation armed, perform the purge iff "Yes" is selected and close the
dialog; with the file browser open, select a file and publish its
contents; otherwise nothing. -/
def QueuesPane.onKeyEnter (env : Env) (st : QueuesPane) :
    Option (QueuesPane × List Effect) :=
  if st.should_confirm then
    if st.confirmation.is_confirmed then
      match st.table.state.selected with
      | some i =>
        match st.table.data.entries.get? i with
        | none => none
        | some info =>
          some ({ st with
              should_notif_purged := true
              confirmation := st.confirmation.reset
              should_confirm := false },
            [Effect.purgeQueue info.name info.vhost])
      | none =>
        some ({ st with
            confirmation := st.confirmation.reset
            should_confirm := false }, [])
    else
      some ({ st with
          confirmation := st.confirmation.reset
          should_confirm := false }, [])
  else if st.should_open_files then
    match st.explorer.select env with
    | none => none
    | some (sel, nav) =>
      match sel with
      | some f =>
        match st.table.state.selected with
        | some i =>
          match st.table.data.entries.get? i with
          | none => none
          | some info =>
            some ({ st with
                explorer := nav
                should_open_files := false
                should_notif_from_file := true },
              [Effect.postPayload info.name info.vhost (env.readToString f)])
        | none => some ({ st with explorer := nav }, [])
      | none => some ({ st with explorer := nav }, [])
  else some (st, [])

/-- The `Key::Backspace` arm (src/views/queues.rs:266-270): go to the parent
directory while the file explorer is open. -/
def QueuesPane.onBackspace (env : Env) (st : QueuesPane) :
    Option (QueuesPane × List Effect) :=
  some (if st.should_open_files
    then { st with explorer := st.explorer.select_parent env } else st, [])

/-- The `Key::Char('?')` arm (src/views/queues.rs:271-273): toggle the help
overlay. -/
def QueuesPane.onKeyHelp (st : QueuesPane) : Option (QueuesPane × List Effect) :=
  some ({ st with should_show_help := !st.should_show_help }, [])

/-- The `match key` dispatch of `QueuesPane::handle_key`
(src/views/queues.rs:184-275), acting on the already-cleared state, one
helper per source match arm; the final wildcard arm ignores the key. -/
def QueuesPane.dispatchKey (env : Env) (key : KKey) (st : QueuesPane) :
    Option (QueuesPane × List Effect) :=
  match key with
  | .Char c =>
    if c = 'j' then st.onKeyJ
    else if c = 'k' then st.onKeyK
    else if c = 'p' then st.onKeyP env
    else if c = 'd' then st.onKeyD
    else if c = 'f' then st.onKeyF
    else if c = '\n' then st.onKeyEnter env
    else if c = '?' then st.onKeyHelp
    else some (st, [])
  | .Ctrl c =>
    if c = 'p' then st.onCtrlP env else some (st, [])
  | .Backspace => st.onBackspace env
  | .OtherKey => some (st, [])

/-- `QueuesPane::handle_key` (src/views/queues.rs:178-276): clear the five
notification flags, then dispatch on the key. -/
def QueuesPane.handle_key (env : Env) (key : KKey) (st : QueuesPane) :
    Option (QueuesPane × List Effect) :=
  QueuesPane.dispatchKey env key (clearNotifs st)

/-- A sequence of key presses, threading the state and concatenating the
effect traces in order. -/
def QueuesPane.handleKeys (env : Env) (keys : List KKey) (st : QueuesPane) :
    Option (QueuesPane × List Effect) :=
  match keys with
  | [] => some (st, [])
  | k :: rest =>
    match st.handle_key env k with
    | none => none
    | some (st1, effs) =>
      match st1.handleKeys env rest with
      | none => none
      | some (st2, effs2) => some (st2, effs ++ effs2)

/-- `QueuesPane::update` (src/views/queues.rs:278-283): a non-blocking
`try_iter().next()` on the refresh channel.  `pending` is the channel's
queued results, oldest first; the handler pops at most the front one and
replaces `self.table.data` with it (the selection state is untouched). -/
def QueuesPane.update (st : QueuesPane) (pending : List (List QueueInfo)) :
    QueuesPane × List (List QueueInfo) :=
  match pending with
  | [] => (st, [])
  | d :: rest => ({ st with table := { st.table with data := ⟨d⟩ } }, rest)

@[simp] theorem clearNotifs_table (st : QueuesPane) :
    (clearNotifs st).table = st.table := rfl

@[simp] theorem clearNotifs_confirmation (st : QueuesPane) :
    (clearNotifs st).confirmation = st.confirmation := rfl

@[simp] theorem clearNotifs_explorer (st : QueuesPane) :
    (clearNotifs st).explorer = st.explorer := rfl

@[simp] theorem clearNotifs_should_show_help (st : QueuesPane) :
    (clearNotifs st).should_show_help = st.should_show_help := rfl

@[simp] theorem clearNotifs_should_confirm (st : QueuesPane) :
    (clearNotifs st).should_confirm = st.should_confirm := rfl

@[simp] theorem clearNotifs_should_open_files (st : QueuesPane) :
    (clearNotifs st).should_open_files = st.should_open_files := rfl

@[simp] theorem clearNotifs_paste (st : QueuesPane) :
    (clearNotifs st).should_notif_paste = false := rfl

@[simp] theorem clearNotifs_copy (st : QueuesPane) :
    (clearNotifs st).should_notif_copy = false := rfl

@[simp] theorem clearNotifs_no_msg (st : QueuesPane) :
    (clearNotifs st).should_notif_no_msg = false := rfl

@[simp] theorem clearNotifs_purged (st : QueuesPane) :
    (clearNotifs st).should_notif_purged = false := rfl

@[simp] theorem clearNotifs_from_file (st : QueuesPane) :
    (clearNotifs st).should_notif_from_file = false := rfl

/-- A sample queue row. -/
def qi0 : QueueInfo :=
  { name := "orders", t := "classic", state := "running",
    message_stats :=
      { publish := 0, publish_details := ⟨0⟩, deliver_get := 0,
        deliver_get_details := ⟨0⟩, ack := 0, ack_details := ⟨0⟩ },
    ready := 0, unacked := 0, total := 0, vhost := "/" }

/-- A second sample queue row. -/
def qi1 : QueueInfo := { qi0 with name := "payments" }

/-- A concrete environment: empty clipboard reply, no poppable message, an
empty home directory. -/
def env0 : Env :=
  { clipboard := "payload", popResult := fun _ _ => none,
    readToString := fun _ => "", is_file := fun _ => false,
    readDir := fun _ => [], fileName := fun _ => none,
    parent := fun _ => none }

/-- A queues pane as after construction with one queue row, row 0 selected,
no overlay open. -/
def basePane : QueuesPane :=
  { table := { data := ⟨[qi0]⟩, state := ⟨some 0⟩ },
    confirmation := ConfirmationBox.default,
    explorer := { root := "/home", file_table := Datatable.new [] },
    should_notif_paste := false, should_notif_copy := false,
    should_notif_no_msg := false, should_notif_purged := false,
    should_notif_from_file := false, should_show_help := false,
    should_confirm := false, should_open_files := false }

/-- `basePane` with the purge confirmation armed. -/
def armedPane : QueuesPane := { basePane with should_confirm := true }

/-- `basePane` with two queue rows and row 1 selected. -/
def twoRowPane : QueuesPane :=
  { basePane with table := { data := ⟨[qi0, qi1]⟩, state := ⟨some 1⟩ } }

theorem QueuesPane.onKeyJ_help (st : QueuesPane) (b : Bool) :
    QueuesPane.onKeyJ { st with should_show_help := b }
      = (QueuesPane.onKeyJ st).map
          (fun r => ({ r.1 with should_show_help := b }, r.2)) := by
  unfold QueuesPane.onKeyJ
  by_cases h1 : st.should_confirm = true <;>
    by_cases h2 : st.should_open_files = true <;>
      simp [h1, h2]

theorem QueuesPane.onKeyK_help (st : QueuesPane) (b : Bool) :
    QueuesPane.onKeyK { st with should_show_help := b }
      = (QueuesPane.onKeyK st).map
          (fun r => ({ r.1 with should_show_help := b }, r.2)) := by
  unfold QueuesPane.onKeyK
  by_cases h1 : st.should_confirm = true <;>
    by_cases h2 : st.should_open_files = true <;>
      simp [h1, h2]

theorem QueuesPane.onKeyP_help (env : Env) (st : QueuesPane) (b : Bool) :
    QueuesPane.onKeyP env { st with should_show_help := b }
      = (QueuesPane.onKeyP env st).map
          (fun r => ({ r.1 with should_show_help := b }, r.2)) := by
  unfold QueuesPane.onKeyP
  cases hs : st.table.state.selected with
  | none => simp [hs]
  | some i =>
    cases hg : st.table.data.entries[i]? with
    | none => simp [hs, List.get?_eq_getElem?, hg]
    | some qi => simp [hs, List.get?_eq_getElem?, hg]

theorem QueuesPane.onCtrlP_help (env : Env) (st : QueuesPane) (b : Bool) :
    QueuesPane.onCtrlP env { st with should_show_help := b }
      = (QueuesPane.onCtrlP env st).map
          (fun r => ({ r.1 with should_show_help := b }, r.2)) := by
  unfold QueuesPane.onCtrlP
  cases hs : st.table.state.selected with
  | none => simp [hs]
  | some i =>
    cases hg : st.table.data.entries[i]? with
    | none => simp [hs, List.get?_eq_getElem?, hg]
    | some qi =>
      cases hpop : env.popResult qi.name qi.vhost <;>
        simp [hs, List.get?_eq_getElem?, hg, hpop]

theorem QueuesPane.onKeyD_help (st : QueuesPane) (b : Bool) :
    QueuesPane.onKeyD { st with should_show_help := b }
      = (QueuesPane.onKeyD st).map
          (fun r => ({ r.1 with should_show_help := b }, r.2)) := by
  unfold QueuesPane.onKeyD
  by_cases h1 : st.table.state.selected.isSome = true <;> simp [h1]

theorem QueuesPane.onKeyF_help (st : QueuesPane) (b : Bool) :
    QueuesPane.onKeyF { st with should_show_help := b }
      = (QueuesPane.onKeyF st).map
          (fun r => ({ r.1 with should_show_help := b }, r.2)) := by
  simp [QueuesPane.onKeyF]

theorem QueuesPane.onKeyEnter_help (env : Env) (st : QueuesPane) (b : Bool) :
    QueuesPane.onKeyEnter env { st with should_show_help := b }
      = (QueuesPane.onKeyEnter env st).map
          (fun r => ({ r.1 with should_show_help := b }, r.2)) := by
  unfold QueuesPane.onKeyEnter
  by_cases h1 : st.should_confirm = true
  · by_cases h2 : st.confirmation.is_confirmed = true
    · cases hs : st.table.state.selected with
      | none => simp [h1, h2, hs]
      | some i =>
        cases hg : st.table.data.entries[i]? with
        | none => simp [h1, h2, hs, List.get?_eq_getElem?, hg]
        | some qi => simp [h1, h2, hs, List.get?_eq_getElem?, hg]
    · simp [h1, h2]
  · by_cases h2 : st.should_open_files = true
    · cases hnav : FileNavigator.select env st.explorer with
      | none => simp [h1, h2, hnav]
      | some pr =>
        obtain ⟨sel, nav⟩ := pr
        cases sel with
        | none => simp [h1, h2, hnav]
        | some f =>
          cases hs : st.table.state.selected with
          | none => simp [h1, h2, hnav, hs]
          | some i =>
            cases hg : st.table.data.entries[i]? with
            | none => simp [h1, h2, hnav, hs, List.get?_eq_getElem?, hg]
            | some qi => simp [h1, h2, hnav, hs, List.get?_eq_getElem?, hg]
    · simp [h1, h2]

theorem QueuesPane.onBackspace_help (env : Env) (st : QueuesPane) (b : Bool) :
    QueuesPane.onBackspace env { st with should_show_help := b }
      = (QueuesPane.onBackspace env st).map
          (fun r => ({ r.1 with should_show_help := b }, r.2)) := by
  unfold QueuesPane.onBackspace
  by_cases h1 : st.should_open_files = true <;> simp [h1]

/-- C1 counterexample: with the confirmation dialog armed, pressing `f`
still toggles the file-browser flag — the key is not routed only to the
confirmation workflow, the file browser is touched. -/
theorem queues_routing_cex :
    (armedPane.should_confirm = true)
  ∧ (armedPane.should_open_files = false)
  ∧ ((QueuesPane.handle_key env0 (KKey.Char 'f') armedPane).map
        (fun r => r.1.should_open_files) = some true) := by decide

/-- C1 amended: the overlay priority (confirmation first, then file
browser, then main table) governs only the row-navigation keys `j`/`k` and
Enter: while the confirmation dialog is armed, `j`/`k` touch only the
confirmation workflow and Enter leaves the table, file browser and help
untouched and always closes the dialog; with only the file browser open,
Enter touches neither the confirmation nor the table nor the help flag;
with no overlay open, Enter does nothing.  The keys `d`, `f` and `?` are
handled identically whatever overlay is open — `f` toggles the file
browser and `?` toggles help even while a confirmation is armed — and
`p`/`Ctrl+p` still reach the management client whatever overlay is open
whenever a row is selected.  The help flag gates nothing: no key other
than `?` (which merely toggles it) reads it, so every other key behaves
exactly as if help were closed. -/
theorem queues_key_routing (env : Env) (st : QueuesPane) :
    (QueuesPane.handle_key env (KKey.Char 'j') st = some (
        (if st.should_confirm then
          { clearNotifs st with confirmation := st.confirmation.next }
        else if st.should_open_files then
          { clearNotifs st with explorer := st.explorer.next }
        else { clearNotifs st with table := st.table.next }), []))
  ∧ (QueuesPane.handle_key env (KKey.Char 'k') st = some (
        (if st.should_confirm then
          { clearNotifs st with confirmation := st.confirmation.previous }
        else if st.should_open_files then
          { clearNotifs st with explorer := st.explorer.previous }
        else { clearNotifs st with table := st.table.previous }), []))
  ∧ (QueuesPane.handle_key env (KKey.Char 'f') st
      = some ({ clearNotifs st with should_open_files := !st.should_open_files }, []))
  ∧ (QueuesPane.handle_key env (KKey.Char '?') st
      = some ({ clearNotifs st with should_show_help := !st.should_show_help }, []))
  ∧ (QueuesPane.handle_key env (KKey.Char 'd') st
      = some ((if st.table.state.selected.isSome
          then { clearNotifs st with should_confirm := true }
          else clearNotifs st), []))
  ∧ (st.should_confirm = true →
      ∀ st2 effs, QueuesPane.handle_key env (KKey.Char 'j') st = some (st2, effs) →
        st2.table = st.table ∧ st2.explorer = st.explorer
          ∧ st2.should_show_help = st.should_show_help ∧ effs = [])
  ∧ (st.should_confirm = false → st.should_open_files = false →
      QueuesPane.handle_key env (KKey.Char '\n') st = some (clearNotifs st, []))
  ∧ (st.should_confirm = true →
      ∀ st2 effs, QueuesPane.handle_key env (KKey.Char '\n') st = some (st2, effs) →
        st2.table = st.table ∧ st2.explorer = st.explorer
          ∧ st2.should_show_help = st.should_show_help
          ∧ st2.should_open_files = st.should_open_files
          ∧ st2.should_confirm = false)
  ∧ (st.should_confirm = false → st.should_open_files = true →
      ∀ st2 effs, QueuesPane.handle_key env (KKey.Char '\n') st = some (st2, effs) →
        st2.confirmation = st.confirmation ∧ st2.table = st.table
          ∧ st2.should_show_help = st.should_show_help)
  ∧ (∀ i qi, st.table.state.selected = some i →
      st.table.data.entries.get? i = some qi →
      QueuesPane.handle_key env (KKey.Char 'p') st
        = some ({ clearNotifs st with should_notif_paste := true },
            [Effect.postPayload qi.name qi.vhost env.clipboard]))
  ∧ (st.table.state.selected = none →
      QueuesPane.handle_key env (KKey.Char 'p') st = some (clearNotifs st, []))
  ∧ (∀ i qi, st.table.state.selected = some i →
      st.table.data.entries.get? i = some qi →
      QueuesPane.handle_key env (KKey.Ctrl 'p') st
        = some (match env.popResult qi.name qi.vhost with
            | some m => ({ clearNotifs st with should_notif_copy := true },
                [Effect.popItem qi.name qi.vhost, Effect.clipboardSet m.payload])
            | none => ({ clearNotifs st with should_notif_no_msg := true },
                [Effect.popItem qi.name qi.vhost])))
  ∧ (∀ key : KKey, key ≠ KKey.Char '?' → ∀ b : Bool,
      QueuesPane.handle_key env key { st with should_show_help := b }
        = (QueuesPane.handle_key env key st).map
            (fun r => ({ r.1 with should_show_help := b }, r.2))) := by
  have hj : QueuesPane.handle_key env (KKey.Char 'j') st = some (
      (if st.should_confirm then
        { clearNotifs st with confirmation := st.confirmation.next }
      else if st.should_open_files then
        { clearNotifs st with explorer := st.explorer.next }
      else { clearNotifs st with table := st.table.next }), []) := rfl
  refine ⟨hj, rfl, rfl, rfl, rfl, ?_, ?_, ?_, ?_, ?_, ?_, ?_, ?_⟩
  · intro hc st2 effs heq
    rw [hj, if_pos hc] at heq
    simp only [Option.some.injEq, Prod.mk.injEq] at heq
    rcases heq with ⟨rfl, rfl⟩
    exact ⟨rfl, rfl, rfl, rfl⟩
  · intro hcf hff
    simp [QueuesPane.handle_key, QueuesPane.dispatchKey, QueuesPane.onKeyEnter,
      hcf, hff]
  · intro hc st2 effs heq
    have hE : QueuesPane.handle_key env (KKey.Char '\n') st
        = QueuesPane.onKeyEnter env (clearNotifs st) := rfl
    rw [hE] at heq
    unfold QueuesPane.onKeyEnter at heq
    simp only [clearNotifs_should_confirm, clearNotifs_confirmation,
      clearNotifs_table, clearNotifs_explorer, hc, if_true] at heq
    cases hic : st.confirmation.is_confirmed with
    | false =>
      simp [hic] at heq
      rcases heq with ⟨rfl, rfl⟩
      exact ⟨rfl, rfl, rfl, rfl, rfl⟩
    | true =>
      cases hs : st.table.state.selected with
      | none =>
        simp [hic, hs] at heq
        rcases heq with ⟨rfl, rfl⟩
        exact ⟨rfl, rfl, rfl, rfl, rfl⟩
      | some i =>
        cases hg : st.table.data.entries[i]? with
        | none => simp [hic, hs, List.get?_eq_getElem?, hg] at heq
        | some qi =>
          simp [hic, hs, List.get?_eq_getElem?, hg] at heq
          rcases heq with ⟨rfl, rfl⟩
          exact ⟨rfl, rfl, rfl, rfl, rfl⟩
  · intro hcf hff st2 effs heq
    have hE : QueuesPane.handle_key env (KKey.Char '\n') st
        = QueuesPane.onKeyEnter env (clearNotifs st) := rfl
    rw [hE] at heq
    unfold QueuesPane.onKeyEnter at heq
    simp only [clearNotifs_should_confirm, clearNotifs_should_open_files,
      clearNotifs_table, clearNotifs_explorer, hcf, hff] at heq
    cases hnav : FileNavigator.select env st.explorer with
    | none => simp [hnav] at heq
    | some pr =>
      obtain ⟨sel, nav⟩ := pr
      cases sel with
      | none =>
        simp [hnav] at heq
        rcases heq with ⟨rfl, rfl⟩
        exact ⟨rfl, rfl, rfl⟩
      | some f =>
        cases hs : st.table.state.selected with
        | none =>
          simp [hnav, hs] at heq
          rcases heq with ⟨rfl, rfl⟩
          exact ⟨rfl, rfl, rfl⟩
        | some i =>
          cases hg : st.table.data.entries[i]? with
          | none => simp [hnav, hs, List.get?_eq_getElem?, hg] at heq
          | some qi =>
            simp [hnav, hs, List.get?_eq_getElem?, hg] at heq
            rcases heq with ⟨rfl, rfl⟩
            exact ⟨rfl, rfl, rfl⟩
  · intro i qi hs hg
    rw [List.get?_eq_getElem?] at hg
    simp [QueuesPane.handle_key, QueuesPane.dispatchKey, QueuesPane.onKeyP,
      hs, hg]
  · intro hs
    simp [QueuesPane.handle_key, QueuesPane.dispatchKey, QueuesPane.onKeyP, hs]
  · intro i qi hs hg
    rw [List.get?_eq_getElem?] at hg
    cases hpop : env.popResult qi.name qi.vhost <;>
      simp [QueuesPane.handle_key, QueuesPane.dispatchKey, QueuesPane.onCtrlP,
        hs, hg, hpop]
  · intro key hk b
    have hL : QueuesPane.handle_key env key { st with should_show_help := b }
        = QueuesPane.dispatchKey env key
            { clearNotifs st with should_show_help := b } := rfl
    have hR : QueuesPane.handle_key env key st
        = QueuesPane.dispatchKey env key (clearNotifs st) := rfl
    rw [hL, hR]
    generalize clearNotifs st = stc
    cases key with
    | Char c =>
      by_cases h1 : c = 'j'
      · subst h1
        simp [QueuesPane.dispatchKey, QueuesPane.onKeyJ_help]
      · by_cases h2 : c = 'k'
        · subst h2
          simp [QueuesPane.dispatchKey, QueuesPane.onKeyK_help]
        · by_cases h3 : c = 'p'
          · subst h3
            simp [QueuesPane.dispatchKey, QueuesPane.onKeyP_help]
          · by_cases h4 : c = 'd'
            · subst h4
              simp [QueuesPane.dispatchKey, QueuesPane.onKeyD_help]
            · by_cases h5 : c = 'f'
              · subst h5
                simp [QueuesPane.dispatchKey, QueuesPane.onKeyF_help]
              · by_cases h6 : c = '\n'
                · subst h6
                  simp [QueuesPane.dispatchKey, QueuesPane.onKeyEnter_help]
                · by_cases h7 : c = '?'
                  · exact absurd (by rw [h7]) hk
                  · simp [QueuesPane.dispatchKey, h1, h2, h3, h4, h5, h6, h7]
    | Ctrl c =>
      by_cases h1 : c = 'p'
      · subst h1
        simp [QueuesPane.dispatchKey, QueuesPane.onCtrlP_help]
      · simp [QueuesPane.dispatchKey, h1]
    | Backspace =>
      simp [QueuesPane.dispatchKey, QueuesPane.onBackspace_help]
    | OtherKey => simp [QueuesPane.dispatchKey]

set_option maxHeartbeats 2000000 in
/-- C10: `handle_key` clears all five notification flags before dispatching
— its result never depends on the incoming flags — and a flag is true on
return only when the pressed key is the very one whose action raises it
(`p` for pasted, `Ctrl+p` for copied/no-message, Enter with the
confirmation armed for purged, Enter with the file browser open for
posted-from-file); hence any displayed notification disappears on the next
key press, whatever that key is. -/
theorem notif_flags (env : Env) (key : KKey) (st st2 : QueuesPane)
    (effs : List Effect)
    (h : QueuesPane.handle_key env key st = some (st2, effs)) :
    (QueuesPane.handle_key env key st
        = QueuesPane.handle_key env key (clearNotifs st))
  ∧ (st2.should_notif_paste = true →
      key = KKey.Char 'p' ∧ st.table.state.selected.isSome = true)
  ∧ (st2.should_notif_copy = true → key = KKey.Ctrl 'p')
  ∧ (st2.should_notif_no_msg = true → key = KKey.Ctrl 'p')
  ∧ (st2.should_notif_purged = true →
      key = KKey.Char '\n' ∧ st.should_confirm = true)
  ∧ (st2.should_notif_from_file = true →
      key = KKey.Char '\n' ∧ st.should_open_files = true) := by
  constructor
  · have hcc : clearNotifs (clearNotifs st) = clearNotifs st := rfl
    unfold QueuesPane.handle_key
    rw [hcc]
  · unfold QueuesPane.handle_key at h
    have hc1 : (clearNotifs st).should_confirm = st.should_confirm := rfl
    have hc2 : (clearNotifs st).should_open_files = st.should_open_files := rfl
    have hc3 : (clearNotifs st).table = st.table := rfl
    have hf1 : (clearNotifs st).should_notif_paste = false := rfl
    have hf2 : (clearNotifs st).should_notif_copy = false := rfl
    have hf3 : (clearNotifs st).should_notif_no_msg = false := rfl
    have hf4 : (clearNotifs st).should_notif_purged = false := rfl
    have hf5 : (clearNotifs st).should_notif_from_file = false := rfl
    generalize hg : clearNotifs st = stc at h hc1 hc2 hc3 hf1 hf2 hf3 hf4 hf5
    clear hg
    cases key
    all_goals simp only [QueuesPane.dispatchKey] at h
    all_goals try split at h
    all_goals try split at h
    all_goals try split at h
    all_goals try split at h
    all_goals try split at h
    all_goals try split at h
    all_goals try split at h
    all_goals try split at h
    all_goals try simp only [QueuesPane.onKeyJ, QueuesPane.onKeyK,
      QueuesPane.onKeyP, QueuesPane.onKeyD, QueuesPane.onKeyF,
      QueuesPane.onKeyEnter, QueuesPane.onKeyHelp, QueuesPane.onCtrlP,
      QueuesPane.onBackspace] at h
    all_goals try split at h
    all_goals try split at h
    all_goals try split at h
    all_goals try split at h
    all_goals try split at h
    all_goals try split at h
    all_goals
      first
        | exact Option.noConfusion h
        | (injection h with h1
           injection h1 with h2 h3
           subst h2
           subst h3
           refine ⟨?_, ?_, ?_, ?_, ?_⟩ <;> simp_all)

theorem confirm_default_next :
    ConfirmationBox.default.next
      = { table := { data := ⟨["No", "Yes"]⟩, state := ⟨some 1⟩ } } := by decide

theorem confirm_default_not_confirmed :
    ConfirmationBox.default.is_confirmed = false := by decide

theorem confirm_default_next_confirmed :
    ConfirmationBox.default.next.is_confirmed = true := by decide

theorem confirm_default_reset :
    ConfirmationBox.default.reset = ConfirmationBox.default := by decide

theorem confirm_default_next_reset :
    ConfirmationBox.default.next.reset = ConfirmationBox.default := by decide

theorem handleKeys_nil (env : Env) (st : QueuesPane) :
    QueuesPane.handleKeys env [] st = some (st, []) := rfl

theorem handleKeys_cons_some (env : Env) (k : KKey) (ks : List KKey)
    (st st1 st2 : QueuesPane) (effs effs2 : List Effect)
    (h1 : QueuesPane.handle_key env k st = some (st1, effs))
    (h2 : QueuesPane.handleKeys env ks st1 = some (st2, effs2)) :
    QueuesPane.handleKeys env (k :: ks) st = some (st2, effs ++ effs2) := by
  simp only [QueuesPane.handleKeys, h1, h2]

/-- C4: from a queue browser with a row selected and no overlay open,
`d` then `Enter` with the confirmation left at its default ("No") makes no
client call and closes the overlay restoring the initial state (with
notifications cleared); `d`, `j`, `Enter` makes exactly one `purge_queue`
call with the selected row's name and vhost, raises the purged
notification, and returns the confirmation to its initial closed state
("No" selected). -/
theorem purge_confirmation_flow (env : Env) (st : QueuesPane) (i : ℕ)
    (qi : QueueInfo)
    (hsel : st.table.state.selected = some i)
    (hget : st.table.data.entries.get? i = some qi)
    (hconf : st.confirmation = ConfirmationBox.default)
    (hnc : st.should_confirm = false)
    (hnf : st.should_open_files = false) :
    (QueuesPane.handleKeys env [KKey.Char 'd', KKey.Char '\n'] st
        = some (clearNotifs st, []))
  ∧ (QueuesPane.handleKeys env [KKey.Char 'd', KKey.Char 'j', KKey.Char '\n'] st
        = some ({ clearNotifs st with should_notif_purged := true },
            [Effect.purgeQueue qi.name qi.vhost])) := by
  obtain ⟨tbl, conf, expl, p1, p2, p3, p4, p5, hlp, cf, fl⟩ := st
  simp only at hsel hget hconf hnc hnf
  subst hconf
  subst hnc
  subst hnf
  rw [List.get?_eq_getElem?] at hget
  have hd : QueuesPane.handle_key env (KKey.Char 'd')
        ⟨tbl, ConfirmationBox.default, expl, p1, p2, p3, p4, p5, hlp, false, false⟩
      = some (⟨tbl, ConfirmationBox.default, expl,
          false, false, false, false, false, hlp, true, false⟩, []) := by
    simp [QueuesPane.handle_key, QueuesPane.dispatchKey, QueuesPane.onKeyD,
      clearNotifs, hsel]
  have henter1 : QueuesPane.handle_key env (KKey.Char '\n')
        ⟨tbl, ConfirmationBox.default, expl,
          false, false, false, false, false, hlp, true, false⟩
      = some (⟨tbl, ConfirmationBox.default, expl,
          false, false, false, false, false, hlp, false, false⟩, []) := by
    simp [QueuesPane.handle_key, QueuesPane.dispatchKey, QueuesPane.onKeyEnter,
      clearNotifs, confirm_default_not_confirmed, confirm_default_reset]
  have hj : QueuesPane.handle_key env (KKey.Char 'j')
        ⟨tbl, ConfirmationBox.default, expl,
          false, false, false, false, false, hlp, true, false⟩
      = some (⟨tbl, ConfirmationBox.default.next, expl,
          false, false, false, false, false, hlp, true, false⟩, []) := by
    simp [QueuesPane.handle_key, QueuesPane.dispatchKey, QueuesPane.onKeyJ,
      clearNotifs]
  have henter2 : QueuesPane.handle_key env (KKey.Char '\n')
        ⟨tbl, ConfirmationBox.default.next, expl,
          false, false, false, false, false, hlp, true, false⟩
      = some (⟨tbl, ConfirmationBox.default, expl,
          false, false, false, true, false, hlp, false, false⟩,
          [Effect.purgeQueue qi.name qi.vhost]) := by
    simp [QueuesPane.handle_key, QueuesPane.dispatchKey, QueuesPane.onKeyEnter,
      clearNotifs, confirm_default_next_confirmed, confirm_default_next_reset,
      hsel, hget]
  constructor
  · have hrun := handleKeys_cons_some env (KKey.Char 'd') [KKey.Char '\n']
      _ _ _ _ _ hd
      (handleKeys_cons_some env (KKey.Char '\n') [] _ _ _ _ _ henter1
        (handleKeys_nil env _))
    simpa [clearNotifs] using hrun
  · have hrun := handleKeys_cons_some env (KKey.Char 'd')
      [KKey.Char 'j', KKey.Char '\n'] _ _ _ _ _ hd
      (handleKeys_cons_some env (KKey.Char 'j') [KKey.Char '\n'] _ _ _ _ _ hj
        (handleKeys_cons_some env (KKey.Char '\n') [] _ _ _ _ _ henter2
          (handleKeys_nil env _)))
    simpa [clearNotifs] using hrun

/-- C4 witness: the purge flow at the concrete one-row pane. -/
theorem purge_confirmation_flow_witness :
    (basePane.table.state.selected = some 0)
  ∧ (basePane.table.data.entries.get? 0 = some qi0)
  ∧ (basePane.confirmation = ConfirmationBox.default)
  ∧ (basePane.should_confirm = false)
  ∧ (basePane.should_open_files = false)
  ∧ ((QueuesPane.handleKeys env0 [KKey.Char 'd', KKey.Char '\n'] basePane
        = some (clearNotifs basePane, []))
     ∧ (QueuesPane.handleKeys env0
          [KKey.Char 'd', KKey.Char 'j', KKey.Char '\n'] basePane
        = some ({ clearNotifs basePane with should_notif_purged := true },
            [Effect.purgeQueue qi0.name qi0.vhost]))) :=
  ⟨rfl, rfl, rfl, rfl, rfl,
    purge_confirmation_flow env0 basePane 0 qi0 rfl rfl rfl rfl rfl⟩

/-- C2 counterexample: a pane whose table holds two rows with row 1
selected adopts a one-row refresh result; the selection stays `Some 1`,
which is not a valid index into the new one-item list — the invariant does
not survive adoption of refreshed items. -/
theorem selection_invariant_cex :
    ((QueuesPane.update twoRowPane [[qi0]]).1.table.state.selected = some 1)
  ∧ ((QueuesPane.update twoRowPane [[qi0]]).1.table.data.entries.length = 1)
  ∧ ¬((1 : ℕ) < 1) := ⟨rfl, rfl, by decide⟩

/-- C2 amended: on a nonempty list `next()` always leaves a valid selection,
and `previous()` does when the prior selection is absent or valid; but the
adoption of refreshed items (`QueuesPane::update`) replaces the rows while
leaving the positional selection untouched, so a shorter refreshed list can
leave the selection out of range — callers must reset it themselves. -/
theorem selection_invariant_amended (T : Type) (t : Datatable T)
    (st : QueuesPane) (d : List QueueInfo) (rest : List (List QueueInfo))
    (hne : 0 < t.data.entries.length)
    (hlen : t.data.entries.length < USIZE)
    (hval : ∀ j, t.state.selected = some j → j < t.data.entries.length) :
    (∃ a, t.next.state.selected = some a ∧ a < t.data.entries.length)
  ∧ (∃ b, t.previous.state.selected = some b ∧ b < t.data.entries.length)
  ∧ ((QueuesPane.update st (d :: rest)).1.table.state.selected
      = st.table.state.selected) := by
  obtain ⟨dd, ⟨sel⟩⟩ := t
  simp only at hne hlen hval
  refine ⟨?_, ?_, rfl⟩
  · cases sel with
    | none => exact ⟨0, by simp [Datatable.next, TableState.select], hne⟩
    | some j =>
      by_cases hc : usizePred dd.entries.length ≤ j
      · exact ⟨0, by simp [Datatable.next, TableState.select, hc], hne⟩
      · refine ⟨j + 1, by simp [Datatable.next, TableState.select, hc], ?_⟩
        rw [usizePred_of_pos (by omega) hlen] at hc
        show j + 1 < dd.entries.length
        omega
  · cases sel with
    | none => exact ⟨0, by simp [Datatable.previous, TableState.select], hne⟩
    | some j =>
      by_cases hc : j = 0
      · refine ⟨usizePred dd.entries.length,
          by simp [Datatable.previous, TableState.select, hc], ?_⟩
        show usizePred dd.entries.length < dd.entries.length
        rw [usizePred_of_pos (by omega) hlen]
        omega
      · refine ⟨j - 1,
          by simp [Datatable.previous, TableState.select, hc], ?_⟩
        have hj := hval j rfl
        show j - 1 < dd.entries.length
        omega

/-- C2 witness: the amended invariant at a one-row table and a concrete
pane/refresh pair. -/
theorem selection_invariant_amended_witness :
    (0 < (⟨⟨[5]⟩, ⟨some 0⟩⟩ : Datatable ℕ).data.entries.length)
  ∧ ((⟨⟨[5]⟩, ⟨some 0⟩⟩ : Datatable ℕ).data.entries.length < USIZE)
  ∧ ((∃ a, (⟨⟨[5]⟩, ⟨some 0⟩⟩ : Datatable ℕ).next.state.selected = some a
        ∧ a < (⟨⟨[5]⟩, ⟨some 0⟩⟩ : Datatable ℕ).data.entries.length)
     ∧ (∃ b, (⟨⟨[5]⟩, ⟨some 0⟩⟩ : Datatable ℕ).previous.state.selected = some b
        ∧ b < (⟨⟨[5]⟩, ⟨some 0⟩⟩ : Datatable ℕ).data.entries.length)
     ∧ ((QueuesPane.update basePane ([] :: [])).1.table.state.selected
        = basePane.table.state.selected)) :=
  ⟨by decide, by norm_num [USIZE],
    selection_invariant_amended ℕ ⟨⟨[5]⟩, ⟨some 0⟩⟩ basePane [] []
      (by decide) (by norm_num [USIZE])
      (fun j hj => by cases Option.some.inj hj; decide)⟩

/-- C5 counterexample: with two results pending (oldest first), one
`update()` call adopts the front — oldest — result, not the newest one:
with pending `[[], [qi0]]` the table shows `[]` while the newest pending
result is `[qi0]`. -/
theorem update_oldest_cex :
    ((QueuesPane.update basePane [[], [qi0]]).1.table.data.entries
        = ([] : List QueueInfo))
  ∧ ((QueuesPane.update basePane [[], [qi0]]).2 = [[qi0]])
  ∧ (([] : List QueueInfo) ≠ [qi0]) := ⟨rfl, rfl, by simp⟩

/-- C5 amended: each `update()` call is a non-blocking drain of at most one
pending item: with nothing pending the state is unchanged, and with results
pending it adopts the *oldest* pending result (the front of the FIFO
channel, via `try_iter().next()`), leaving the rest queued and every other
component of the pane — including the table selection — untouched. -/
theorem update_drains_one (st : QueuesPane) (d : List QueueInfo)
    (rest : List (List QueueInfo)) :
    (QueuesPane.update st [] = (st, []))
  ∧ ((QueuesPane.update st (d :: rest)).1.table.data.entries = d)
  ∧ ((QueuesPane.update st (d :: rest)).2 = rest)
  ∧ ((QueuesPane.update st (d :: rest)).1.table.state = st.table.state)
  ∧ ((QueuesPane.update st (d :: rest)).1.confirmation = st.confirmation)
  ∧ ((QueuesPane.update st (d :: rest)).1.explorer = st.explorer)
  ∧ ((QueuesPane.update st (d :: rest)).1.should_confirm = st.should_confirm)
  ∧ ((QueuesPane.update st (d :: rest)).1.should_open_files
      = st.should_open_files)
  ∧ ((QueuesPane.update st (d :: rest)).1.should_show_help
      = st.should_show_help) :=
  ⟨rfl, rfl, rfl, rfl, rfl, rfl, rfl, rfl, rfl⟩

/-- `X_WINDOW` of `src/widgets/chart.rs`: the chart capacity (100). -/
def X_WINDOW : ℕ := 100

/-- `Y_PADDING` of `src/widgets/chart.rs`: the `f64` literal `1.1`, modelled
as the exact rational `11/10` (no verified claim depends on the literal's
low-order floating-point bits). -/
def Y_PADDING : ℚ := 11 / 10

/-- `ChartData` of `src/widgets/chart.rs`.  `counter: f64` only ever holds
the integers 0, 1, 2, … (exact in `f64` for every run the program can
perform), embedded as `ℚ` together with the sample values. -/
structure ChartData where
  data : List (ℚ × ℚ)
  counter : ℚ
deriving DecidableEq, Repr

/-- `ChartData::default()` from `#[derive(Default)]`: no samples, counter
0. -/
def ChartData.default : ChartData := ⟨[], 0⟩

/-- `ChartData::push` (src/widgets/chart.rs:26-32): append
`(counter, n)`, bump the counter, then `remove(0)` once the length exceeds
`X_WINDOW`. -/
def ChartData.push (c : ChartData) (n : ℚ) : ChartData :=
  let d := c.data ++ [(c.counter, n)]
  let cnt := c.counter + 1
  if X_WINDOW < d.length then ⟨d.eraseIdx 0, cnt⟩ else ⟨d, cnt⟩

/-- A sequence of pushes, oldest first. -/
def ChartData.pushAll (c : ChartData) (ys : List ℚ) : ChartData :=
  ys.foldl ChartData.push c

/-- One step of Rust's `fold(0. / 0., f64::max)`: `f64::max` returns the
other operand when one is NaN, and NaN (`none`) only survives while no real
number has been seen. -/
def f64maxStep (a : Option ℚ) (x : ℚ) : Option ℚ :=
  some (match a with | none => x | some v => max v x)

/-- One step of `fold(0. / 0., f64::min)`. -/
def f64minStep (a : Option ℚ) (x : ℚ) : Option ℚ :=
  some (match a with | none => x | some v => min v x)

/-- `iter().fold(0. / 0., f64::max)` over real (non-NaN) values: `none` is
the NaN result of folding an empty sequence. -/
def foldNanMax (l : List ℚ) : Option ℚ := l.foldl f64maxStep none

/-- `iter().fold(0. / 0., f64::min)`. -/
def foldNanMin (l : List ℚ) : Option ℚ := l.foldl f64minStep none

/-- `ChartData::y_max` (src/widgets/chart.rs:34-40). -/
def ChartData.y_max (c : ChartData) : Option ℚ :=
  foldNanMax (c.data.map Prod.snd)

/-- `ChartData::y_min` (src/widgets/chart.rs:41-47). -/
def ChartData.y_min (c : ChartData) : Option ℚ :=
  foldNanMin (c.data.map Prod.snd)

/-- `f64::max` on possibly-NaN operands. -/
def f64maxOpt (a b : Option ℚ) : Option ℚ :=
  match a, b with
  | none, b => b
  | some x, none => some x
  | some x, some y => some (max x y)

/-- `f64::min` on possibly-NaN operands. -/
def f64minOpt (a b : Option ℚ) : Option ℚ :=
  match a, b with
  | none, b => b
  | some x, none => some x
  | some x, some y => some (min x y)

/-- The `y_max` fold of `RChart::draw` (src/widgets/chart.rs:79): the
maximum of the per-series `y_max` values, NaN-seeded. -/
def rchartYMax (ds : List ChartData) : Option ℚ :=
  ds.foldl (fun a d => f64maxOpt a d.y_max) none

/-- The `y_min` fold of `RChart::draw` (src/widgets/chart.rs:80). -/
def rchartYMin (ds : List ChartData) : Option ℚ :=
  ds.foldl (fun a d => f64minOpt a d.y_min) none

/-- The y-axis `.bounds` that `RChart::draw` passes to the chart widget
(src/widgets/chart.rs:119): `[0., y_max * Y_PADDING]`. -/
def rchartYBounds (ds : List ChartData) : Option ℚ × Option ℚ :=
  (some 0, (rchartYMax ds).map (fun m => m * Y_PADDING))

/-- The y-axis bounds as the spec's words state them:
`[min_of_all_series, max_of_all_series * padding_factor]`. -/
def specYBounds (ds : List ChartData) : Option ℚ × Option ℚ :=
  (rchartYMin ds, (rchartYMax ds).map (fun m => m * Y_PADDING))

/-- A one-sample series whose minimum is 5, separating the drawn bounds
from the spec's bounds. -/
def chart8 : ChartData := ⟨[(0, 5)], 1⟩

theorem push_counter (c : ChartData) (y : ℚ) :
    (c.push y).counter = c.counter + 1 := by
  unfold ChartData.push
  dsimp only
  split <;> rfl

theorem push_data (c : ChartData) (y : ℚ) :
    (c.push y).data
      = if X_WINDOW < (c.data ++ [(c.counter, y)]).length
        then (c.data ++ [(c.counter, y)]).eraseIdx 0
        else c.data ++ [(c.counter, y)] := by
  unfold ChartData.push
  dsimp only
  split <;> simp_all

theorem pushAll_append (c : ChartData) (ys : List ℚ) (y : ℚ) :
    ChartData.pushAll c (ys ++ [y]) = (ChartData.pushAll c ys).push y := by
  simp [ChartData.pushAll, List.foldl_append]

theorem pushAll_default_spec (ys : List ℚ) :
    ((ChartData.pushAll ChartData.default ys).counter = (ys.length : ℚ))
  ∧ ((ChartData.pushAll ChartData.default ys).data
      = (ys.enum.map (fun p => ((p.1 : ℚ), p.2))).drop (ys.length - X_WINDOW)) := by
  induction ys using List.reverseRecOn with
  | nil => exact ⟨rfl, rfl⟩
  | append_singleton ys y ih =>
    obtain ⟨ih1, ih2⟩ := ih
    have henum : (ys ++ [y]).enum.map (fun p => ((p.1 : ℚ), p.2))
        = ys.enum.map (fun p => ((p.1 : ℚ), p.2)) ++ [((ys.length : ℚ), y)] := by
      rw [List.enum_append]
      simp [List.enumFrom]
    have hdata : (ChartData.pushAll ChartData.default ys).data
          ++ [((ChartData.pushAll ChartData.default ys).counter, y)]
        = ((ys ++ [y]).enum.map (fun p => ((p.1 : ℚ), p.2))).drop
            (ys.length - X_WINDOW) := by
      rw [ih1, ih2, henum, List.drop_append_of_le_length (by simp)]
    have hElen : ((ys ++ [y]).enum.map (fun p => ((p.1 : ℚ), p.2))).length
        = ys.length + 1 := by simp
    rw [pushAll_append]
    constructor
    · rw [push_counter, ih1]
      simp
    · rw [push_data, hdata, List.length_drop, hElen]
      have htail : ∀ l : List (ℚ × ℚ), l.eraseIdx 0 = l.tail := by
        intro l
        cases l <;> rfl
      have hX : X_WINDOW = 100 := rfl
      by_cases hn : X_WINDOW ≤ ys.length
      · rw [if_pos (by omega), htail, List.tail_drop]
        have heq : ys.length - X_WINDOW + 1 = (ys ++ [y]).length - X_WINDOW := by
          simp
          omega
        rw [heq]
      · rw [if_neg (by omega)]
        have h0 : ys.length - X_WINDOW = 0 := by omega
        have h1 : (ys ++ [y]).length - X_WINDOW = 0 := by
          simp
          omega
        rw [h0, h1]

/-- C7: starting from the default chart, `capacity + k` pushes (capacity =
`X_WINDOW` = 100, `k ≥ 1`) leave exactly `capacity` samples — the
`capacity` most recent pushed values in push order — whose x values are the
consecutive integers `k, k+1, …, k+99`; and after every prefix of the
pushes the buffer never exceeds `capacity`. -/
theorem map_cast_snd (l : List (ℕ × ℚ)) :
    (l.map (fun p => ((p.1 : ℚ), p.2))).map Prod.snd = l.map Prod.snd := by
  induction l with
  | nil => rfl
  | cons x l ih => simp [ih]

theorem map_cast_fst (l : List (ℕ × ℚ)) :
    (l.map (fun p => ((p.1 : ℚ), p.2))).map Prod.fst
      = (l.map Prod.fst).map (fun j : ℕ => (j : ℚ)) := by
  induction l with
  | nil => rfl
  | cons x l ih => simp [ih]

theorem chart_sliding_window (ys : List ℚ) (k : ℕ) (hk : 1 ≤ k)
    (hlen : ys.length = X_WINDOW + k) :
    ((ChartData.pushAll ChartData.default ys).data.length = X_WINDOW)
  ∧ ((ChartData.pushAll ChartData.default ys).data.map Prod.snd = ys.drop k)
  ∧ ((ChartData.pushAll ChartData.default ys).data.map Prod.fst
      = ((List.range ys.length).drop k).map (fun j : ℕ => (j : ℚ)))
  ∧ (∀ m, (ChartData.pushAll ChartData.default (ys.take m)).data.length
        ≤ X_WINDOW) := by
  obtain ⟨-, hdata⟩ := pushAll_default_spec ys
  have hk0 : ys.length - X_WINDOW = k := by
    rw [hlen]
    omega
  rw [hdata, hk0]
  refine ⟨?_, ?_, ?_, ?_⟩
  · simp [hlen]
  · rw [List.map_drop, map_cast_snd, List.enum_map_snd]
  · rw [List.map_drop, map_cast_fst, List.enum_map_fst, ← List.map_drop]
  · intro m
    obtain ⟨-, hdm⟩ := pushAll_default_spec (ys.take m)
    rw [hdm, List.length_drop]
    simp
    omega

/-- C7 input: 101 pushes of the value 0. -/
def w7ys : List ℚ := List.replicate (X_WINDOW + 1) 0

/-- C7 witness: the sliding-window facts at 101 concrete pushes. -/
theorem chart_sliding_window_witness :
    ((1 : ℕ) ≤ 1)
  ∧ (w7ys.length = X_WINDOW + 1)
  ∧ (((ChartData.pushAll ChartData.default w7ys).data.length = X_WINDOW)
     ∧ ((ChartData.pushAll ChartData.default w7ys).data.map Prod.snd
        = w7ys.drop 1)
     ∧ ((ChartData.pushAll ChartData.default w7ys).data.map Prod.fst
        = ((List.range w7ys.length).drop 1).map (fun j : ℕ => (j : ℚ)))
     ∧ (∀ m, (ChartData.pushAll ChartData.default (w7ys.take m)).data.length
          ≤ X_WINDOW)) :=
  ⟨le_refl 1, by simp [w7ys],
    chart_sliding_window w7ys 1 (le_refl 1) (by simp [w7ys])⟩

/-- C8 counterexample: for the single series holding one sample with value
5, the drawn y-axis lower bound is 0, but the minimum over all samples of
all series is 5 — the drawn bounds differ from
`[min_of_all_series, max_of_all_series * 1.1]`. -/
theorem y_bounds_cex :
    ((rchartYBounds [chart8]).1 = some 0)
  ∧ ((specYBounds [chart8]).1 = some 5)
  ∧ (rchartYBounds [chart8] ≠ specYBounds [chart8]) := by decide

theorem f64maxOpt_assoc (a b c : Option ℚ) :
    f64maxOpt (f64maxOpt a b) c = f64maxOpt a (f64maxOpt b c) := by
  cases a <;> cases b <;> cases c <;> simp [f64maxOpt, max_assoc]

theorem foldl_f64maxStep (l : List ℚ) (a : Option ℚ) :
    l.foldl f64maxStep a = f64maxOpt a (foldNanMax l) := by
  induction l generalizing a with
  | nil => cases a <;> rfl
  | cons x l ih =>
    show l.foldl f64maxStep (f64maxStep a x) = _
    rw [ih]
    show _ = f64maxOpt a (l.foldl f64maxStep (f64maxStep none x))
    rw [ih]
    cases a with
    | none => rfl
    | some v => rw [← f64maxOpt_assoc]; rfl

theorem foldNanMax_append (l1 l2 : List ℚ) :
    foldNanMax (l1 ++ l2) = f64maxOpt (foldNanMax l1) (foldNanMax l2) := by
  unfold foldNanMax
  rw [List.foldl_append, foldl_f64maxStep]
  rfl

theorem rchartYMax_foldl (ds : List ChartData) (a : Option ℚ) :
    ds.foldl (fun a d => f64maxOpt a d.y_max) a = f64maxOpt a (rchartYMax ds) := by
  induction ds generalizing a with
  | nil => cases a <;> rfl
  | cons c ds ih =>
    show ds.foldl _ (f64maxOpt a c.y_max) = _
    rw [ih]
    show _ = f64maxOpt a (ds.foldl _ (f64maxOpt none c.y_max))
    rw [ih]
    cases a with
    | none => rfl
    | some v => rw [← f64maxOpt_assoc]; rfl

theorem rchartYMax_join (ds : List ChartData) :
    rchartYMax ds = foldNanMax ((ds.map (fun c => c.data.map Prod.snd)).flatten) := by
  induction ds with
  | nil => rfl
  | cons c ds ih =>
    show ds.foldl _ (f64maxOpt none c.y_max) = _
    rw [rchartYMax_foldl]
    have hj : ((c :: ds).map (fun c => c.data.map Prod.snd)).flatten
        = c.data.map Prod.snd ++ ((ds.map (fun c => c.data.map Prod.snd)).flatten) := by
      simp
    rw [hj, foldNanMax_append, ← ih]
    rfl

/-- C8 amended: the y-axis bounds that `RChart::draw` computes are
`[0, M * 1.1]` where `M` is the (NaN-seeded) maximum over all samples of
all combined series — the lower bound is the constant 0, not the overall
minimum; the minimum is used only for the axis label text. -/
theorem rchart_y_bounds (ds : List ChartData) :
    rchartYBounds ds
      = (some 0,
         (foldNanMax ((ds.map (fun c => c.data.map Prod.snd)).flatten)).map
           (fun m => m * Y_PADDING)) := by
  unfold rchartYBounds
  rw [rchartYMax_join]

/-- C10 witness: the flag discipline at a concrete key press (`j` on the
one-row pane, which leaves the pane unchanged and makes no call). -/
theorem notif_flags_witness :
    (QueuesPane.handle_key env0 (KKey.Char 'j') basePane = some (basePane, []))
  ∧ ((QueuesPane.handle_key env0 (KKey.Char 'j') basePane
        = QueuesPane.handle_key env0 (KKey.Char 'j') (clearNotifs basePane))
     ∧ (basePane.should_notif_paste = true →
          KKey.Char 'j' = KKey.Char 'p'
            ∧ basePane.table.state.selected.isSome = true)
     ∧ (basePane.should_notif_copy = true → KKey.Char 'j' = KKey.Ctrl 'p')
     ∧ (basePane.should_notif_no_msg = true → KKey.Char 'j' = KKey.Ctrl 'p')
     ∧ (basePane.should_notif_purged = true →
          KKey.Char 'j' = KKey.Char '\n' ∧ basePane.should_confirm = true)
     ∧ (basePane.should_notif_from_file = true →
          KKey.Char 'j' = KKey.Char '\n'
            ∧ basePane.should_open_files = true)) :=
  ⟨by decide,
    notif_flags env0 (KKey.Char 'j') basePane basePane [] (by decide)⟩

end Rabbitui
